import Mathlib

/-!
Shallow embedding of `src/server.py` (a FastMCP "service anniversary" server)
and verification of the spec's claims about its tools.

Modelling conventions:
* `uuid.uuid4()` hands out fresh identifiers; it is modelled as a counter
  (`Gen.uuid`) that yields the naturals 0, 1, 2, ... in call order.  Two
  distinct calls yield distinct identifiers (true of real UUID4 up to
  negligible collision probability).
* `datetime.now(timezone.utc)` is modelled as a read of an arbitrary clock
  `clk : Nat -> Int` at the index of the call (`Gen.tick`); `clk k` is the
  timestamp, in seconds, returned by the k-th `now()` call of the process.
  A wall clock is monotone, which theorems assume explicitly where needed.
* `timedelta(days = d)` is `d * DAY` seconds; ISO rendering is an
  order-preserving injection, so dates are compared as their instants.
* Request dictionaries become structures of `Option` fields; `dict.get`
  with a default becomes `Option.getD`.
* The tool bodies contain no `raise`, so the `Except Err` wrappers
  (the failure channel the spec's error taxonomy refers to) always
  return `Except.ok`.
-/

/-- Seconds in one day (`timedelta(days = n)` is `n * DAY` seconds). -/
def DAY : Int := 86400

/-- Error taxonomy named by the spec (section 7). -/
inductive Err where
  | invalidArgument
  | notFound
  | permissionDenied
  | conflict
deriving DecidableEq

/-- `true` exactly on successful tool results. -/
def toolOk {α : Type} : Except Err α → Bool
  | Except.ok _ => true
  | Except.error _ => false

/-- Generator state threaded through the tools: `uuid` is the index of the
next fresh identifier produced by `uuid.uuid4()`, `tick` the index of the
next `datetime.now` reading. -/
structure Gen where
  uuid : Nat
  tick : Nat
deriving DecidableEq

/-- Person record produced by `_mock_person` (celebrator shape). -/
structure Person where
  rosterPersonId : Nat
  firstName : String
  lastName : String
  emailAddress : String
  avatarUrl : String
  jobTitle : String
  isInMyTeam : Bool
deriving DecidableEq

/-- Person record used for comment contributors (carries `isCurrentUser`). -/
structure Contributor where
  rosterPersonId : Nat
  firstName : String
  lastName : String
  emailAddress : String
  avatarUrl : String
  jobTitle : String
  isCurrentUser : Bool
deriving DecidableEq

/-- The `thankYouMessage` sub-record of a celebration. -/
structure ThankYou where
  comment : String
  totalLikes : Int
deriving DecidableEq

/-- Celebration record produced by `_mock_celebration`. -/
structure Celebration where
  celebrationId : Nat
  milestoneName : String
  date : Int
  imageUrl : String
  totalInvites : Int
  canContribute : Bool
  hasContributed : Bool
  hasCelebratorThanked : Bool
  allowPrivateComments : Bool
  thankYouMessage : ThankYou
  celebrator : Person
deriving DecidableEq

/-- `_mock_person(i)` from src/server.py: draws one fresh uuid for
`rosterPersonId`. -/
def mock_person (i : Int) (g : Gen) : Person × Gen :=
  ({ rosterPersonId := g.uuid
     firstName := "User" ++ toString i
     lastName := "Example"
     emailAddress := "user" ++ toString i ++ "@example.com"
     avatarUrl := "https://example.com/avatar.png"
     jobTitle := "Software Engineer"
     isInMyTeam := i % 2 == 0 },
   { g with uuid := g.uuid + 1 })

/-- `_mock_celebration(i)` from src/server.py: reads the clock once
(`now = datetime.now(timezone.utc)`), draws a fresh uuid for
`celebrationId`, then builds the celebrator via `_mock_person(i)`;
`date = now + timedelta(days = i*7)`. -/
def mock_celebration (clk : Nat → Int) (i : Int) (g : Gen) : Celebration × Gen :=
  let now := clk g.tick
  let g1 : Gen := { g with tick := g.tick + 1 }
  let cid := g1.uuid
  let g2 : Gen := { g1 with uuid := g1.uuid + 1 }
  let pg := mock_person i g2
  ({ celebrationId := cid
     milestoneName := "Service Anniversary " ++ toString i
     date := now + i * 7 * DAY
     imageUrl := "https://example.com/milestone.png"
     totalInvites := 5 + i
     canContribute := true
     hasContributed := i % 2 == 0
     hasCelebratorThanked := i % 3 == 0
     allowPrivateComments := true
     thankYouMessage := { comment := "Thanks team!", totalLikes := i }
     celebrator := pg.1 },
   pg.2)

/-- The `search` sub-object of a search query (read but never used by the
code). -/
structure SearchSel where
  by_ : Option String
  identifier : Option String
deriving DecidableEq

/-- The `filters` sub-object of a search query (never read by the code). -/
structure Filters where
  team : Option String
  timePeriod : Option String
  notBeforeDate : Option String
  notAfterDate : Option String
deriving DecidableEq

/-- The `pagination` sub-object of a search query. -/
structure Pagination where
  limit : Option Int
  cursor : Option Int
deriving DecidableEq

/-- A `search` tool request. -/
structure SearchQuery where
  search : Option SearchSel
  filters : Option Filters
  pagination : Option Pagination
deriving DecidableEq

/-- `limit = int(query.get("pagination", {}).get("limit", 5))`. -/
def qlimit (q : SearchQuery) : Int :=
  (q.pagination.bind Pagination.limit).getD 5

/-- `cursor = int(query.get("pagination", {}).get("cursor", 0))`. -/
def qcursor (q : SearchQuery) : Int :=
  (q.pagination.bind Pagination.cursor).getD 0

/-- `metadata` of a search response. -/
structure SearchMetadata where
  total : Int
  nextCursor : Int
deriving DecidableEq

/-- A `search` tool response. -/
structure SearchResponse where
  celebrations : List Celebration
  metadata : SearchMetadata
deriving DecidableEq

/-- State-threaded build of `[_mock_celebration(i) for i in is]`, evaluating
left to right exactly as the Python comprehension does. -/
def genCelebrations (clk : Nat → Int) (g : Gen) : List Int → List Celebration × Gen
  | [] => ([], g)
  | i :: is =>
      let cg := mock_celebration clk i g
      let rest := genCelebrations clk cg.2 is
      (cg.1 :: rest.1, rest.2)

/-- The index list `[i + cursor + 1 for i in range(n)]` of the comprehension
in `search`. -/
def idxList (cursor : Int) (n : Nat) : List Int :=
  (List.range n).map (fun (j : Nat) => (j : Int) + cursor + 1)

/-- The `search` tool (src/server.py lines 197-205):
`celebrations = [_mock_celebration(i + cursor + 1) for i in range(limit)]`,
`metadata = {"total": 100, "nextCursor": cursor + limit}`.  `range(limit)`
is empty for `limit <= 0`, hence `limit.toNat`. -/
def search (clk : Nat → Int) (q : SearchQuery) (g : Gen) : SearchResponse × Gen :=
  let limit := qlimit q
  let cursor := qcursor q
  let cs := genCelebrations clk g (idxList cursor limit.toNat)
  ({ celebrations := cs.1
     metadata := { total := 100, nextCursor := cursor + limit } },
   cs.2)

/-- `search` as a fallible tool call: the body contains no `raise`, so every
call succeeds. -/
def search_tool (clk : Nat → Int) (q : SearchQuery) (g : Gen) :
    Except Err (SearchResponse × Gen) :=
  Except.ok (search clk q g)

/-- Celebration ids of a search page, in page order. -/
def pageIds (r : SearchResponse) : List Nat :=
  r.celebrations.map Celebration.celebrationId

/-- Dates of a search page, in page order. -/
def pageDates (r : SearchResponse) : List Int :=
  r.celebrations.map Celebration.date

/-- A threaded comment as returned by `celebration_contributions`
(replies nested inline). -/
inductive ThreadComment where
  | mk (commentId : Nat) (isPrivate : Bool) (totalLikes : Int) (text : String)
       (contributor : Contributor) (replies : List ThreadComment)

/-- `commentId` field of a threaded comment. -/
def ThreadComment.commentId : ThreadComment → Nat
  | ThreadComment.mk c _ _ _ _ _ => c

/-- `isPrivate` field of a threaded comment. -/
def ThreadComment.isPrivate : ThreadComment → Bool
  | ThreadComment.mk _ p _ _ _ _ => p

/-- `totalLikes` field of a threaded comment. -/
def ThreadComment.totalLikes : ThreadComment → Int
  | ThreadComment.mk _ _ l _ _ _ => l

/-- `comment` (text) field of a threaded comment. -/
def ThreadComment.text : ThreadComment → String
  | ThreadComment.mk _ _ _ t _ _ => t

/-- `contributor` field of a threaded comment. -/
def ThreadComment.contributor : ThreadComment → Contributor
  | ThreadComment.mk _ _ _ _ c _ => c

/-- `replies` field of a threaded comment. -/
def ThreadComment.replies : ThreadComment → List ThreadComment
  | ThreadComment.mk _ _ _ _ _ r => r

/-- A `celebration_contributions` request. -/
structure ContribQuery where
  celebrationId : Option String
  cursor : Option String
deriving DecidableEq

/-- `metadata` of a `celebration_contributions` response (`nextCursor` is a
fresh uuid in the code). -/
structure ContribMetadata where
  totalComments : Nat
  nextCursor : Nat
deriving DecidableEq

/-- A `celebration_contributions` response. -/
structure ContribResponse where
  celebration : Celebration
  comments : List ThreadComment
  metadata : ContribMetadata

/-- The `celebration_contributions` tool (src/server.py lines 259-288):
one mock celebration, one contributor (fresh uuid), one reply nested under
one top-level comment, `totalComments = len(comments)`, `nextCursor` a
fresh uuid. -/
def celebration_contributions (clk : Nat → Int) (q : ContribQuery) (g : Gen) :
    ContribResponse × Gen :=
  let cg := mock_celebration clk 1 g
  let g1 := cg.2
  let contributor : Contributor :=
    { rosterPersonId := g1.uuid
      firstName := "John"
      lastName := "Doe"
      emailAddress := "john.doe@example.com"
      avatarUrl := "https://example.com/john.png"
      jobTitle := "Engineer"
      isCurrentUser := false }
  let g2 : Gen := { g1 with uuid := g1.uuid + 1 }
  let reply : ThreadComment :=
    ThreadComment.mk g2.uuid false 1 "Nice work!" contributor []
  let g3 : Gen := { g2 with uuid := g2.uuid + 1 }
  let top : ThreadComment :=
    ThreadComment.mk g3.uuid false 5 "Congratulations on your milestone!" contributor [reply]
  let g4 : Gen := { g3 with uuid := g3.uuid + 1 }
  let comments := [top]
  ({ celebration := cg.1
     comments := comments
     metadata := { totalComments := comments.length, nextCursor := g4.uuid } },
   { g4 with uuid := g4.uuid + 1 })

/-- A `comment` tool request. -/
structure CommentQuery where
  celebrationId : Option String
  commentId : Option String
  comment : Option String
  isPrivate : Option Bool
deriving DecidableEq

/-- The comment record created by the `comment` tool (no `replies` key). -/
structure PostedComment where
  commentId : Nat
  isPrivate : Bool
  totalLikes : Int
  comment : String
  contributor : Contributor
deriving DecidableEq

/-- A `comment` tool response. -/
structure CommentResponse where
  celebration : Celebration
  comment : PostedComment
deriving DecidableEq

/-- The `comment` tool (src/server.py lines 332-351): mock celebration 1, a
hardcoded current-user contributor (fresh uuid), and a new comment echoing
`query.get("comment", "")` and `query.get("isPrivate", False)` with
`totalLikes = 0`. -/
def comment (clk : Nat → Int) (q : CommentQuery) (g : Gen) : CommentResponse × Gen :=
  let cg := mock_celebration clk 1 g
  let g1 := cg.2
  let contributor : Contributor :=
    { rosterPersonId := g1.uuid
      firstName := "Madan"
      lastName := "Shetty"
      emailAddress := "madan.shetty@example.com"
      avatarUrl := "https://example.com/avatar_madan.png"
      jobTitle := "Software Engineer"
      isCurrentUser := true }
  let g2 : Gen := { g1 with uuid := g1.uuid + 1 }
  let newComment : PostedComment :=
    { commentId := g2.uuid
      isPrivate := q.isPrivate.getD false
      totalLikes := 0
      comment := q.comment.getD ""
      contributor := contributor }
  ({ celebration := cg.1, comment := newComment },
   { g2 with uuid := g2.uuid + 1 })

/-- `comment` as a fallible tool call: the body contains no `raise` (in
particular no `PermissionDenied` path), so every call succeeds. -/
def comment_tool (clk : Nat → Int) (q : CommentQuery) (g : Gen) :
    Except Err (CommentResponse × Gen) :=
  Except.ok (comment clk q g)

/-- An entry of `byRosterPersonId` in an invite request. -/
structure RosterRef where
  rosterPersonId : Option String
deriving DecidableEq

/-- An entry of `byEmailAddress` in an invite request. -/
structure EmailEntry where
  emailAddress : Option String
  firstName : Option String
  lastName : Option String
deriving DecidableEq

/-- An `invite` tool request. -/
structure InviteQuery where
  celebrationId : Option String
  byRosterPersonId : List RosterRef
  byEmailAddress : List EmailEntry
deriving DecidableEq

/-- `invitationSummary` of an invite response. -/
structure InvitationSummary where
  invitesSent : Int
  alreadyInvited : Int
deriving DecidableEq

/-- An entry of `invitedContributors` in an invite response. -/
structure InvitedContributor where
  emailAddress : String
  firstName : String
  lastName : String
deriving DecidableEq

/-- An entry of `suggestedInvitees` in an invite response. -/
structure SuggestedInvitee where
  rosterPersonId : Nat
  firstName : String
  lastName : String
deriving DecidableEq

/-- An `invite` tool response. -/
structure InviteResponse where
  celebration : Celebration
  invitationSummary : InvitationSummary
  invitedContributors : List InvitedContributor
  suggestedInvitees : List SuggestedInvitee
deriving DecidableEq

/-- The `invite` tool (src/server.py lines 391-407): the request is never
read; the response is mock celebration 1, the constant summary
`invitesSent = 2, alreadyInvited = 1`, two constant invited contributors and
two suggested invitees with fresh uuids. -/
def invite (clk : Nat → Int) (q : InviteQuery) (g : Gen) : InviteResponse × Gen :=
  let cg := mock_celebration clk 1 g
  let g1 := cg.2
  let s1 : SuggestedInvitee :=
    { rosterPersonId := g1.uuid, firstName := "Amit", lastName := "Kumar" }
  let g2 : Gen := { g1 with uuid := g1.uuid + 1 }
  let s2 : SuggestedInvitee :=
    { rosterPersonId := g2.uuid, firstName := "Priya", lastName := "Sharma" }
  let g3 : Gen := { g2 with uuid := g2.uuid + 1 }
  ({ celebration := cg.1
     invitationSummary := { invitesSent := 2, alreadyInvited := 1 }
     invitedContributors :=
       [ { emailAddress := "jane.doe@example.com", firstName := "Jane", lastName := "Doe" },
         { emailAddress := "john.smith@example.com", firstName := "John", lastName := "Smith" } ]
     suggestedInvitees := [s1, s2] },
   g3)

/-- `invite` as a fallible tool call: the body contains no `raise` (no
`InvalidArgument` or `NotFound` path), so every call succeeds. -/
def invite_tool (clk : Nat → Int) (q : InviteQuery) (g : Gen) :
    Except Err (InviteResponse × Gen) :=
  Except.ok (invite clk q g)

/-- Constant zero clock, used for concrete evaluations. -/
def clk0 : Nat → Int := fun _ => 0

/-- Initial generator state. -/
def g0 : Gen := { uuid := 0, tick := 0 }

/-- Concrete search query: limit 2, cursor 0. -/
def cq1 : SearchQuery :=
  { search := none, filters := none
    pagination := some { limit := some 2, cursor := some 0 } }

/-- Concrete search query: limit 3, cursor 150 (past the reported total). -/
def cq10 : SearchQuery :=
  { search := none, filters := none
    pagination := some { limit := some 3, cursor := some 150 } }

/-- Concrete search query: limit 1, cursor 0. -/
def cq3 : SearchQuery :=
  { search := none, filters := none
    pagination := some { limit := some 1, cursor := some 0 } }

/-- Concrete search query asking for past celebrations: timePeriod "past",
limit 2, cursor 0. -/
def cq4 : SearchQuery :=
  { search := none
    filters := some
      { team := none, timePeriod := some "past"
        notBeforeDate := none, notAfterDate := none }
    pagination := some { limit := some 2, cursor := some 0 } }

/-- Concrete search query with limit 0. -/
def cq5 : SearchQuery :=
  { search := none, filters := none
    pagination := some { limit := some 0, cursor := some 0 } }

/-- Concrete invite query: a single, fully specified email entry. -/
def iq2 : InviteQuery :=
  { celebrationId := some "celebration-1"
    byRosterPersonId := []
    byEmailAddress :=
      [ { emailAddress := some "a@x.com", firstName := some "Ada", lastName := some "Xu" } ] }

/-- Concrete invite query: unknown celebration id and an email entry with no
firstName and no lastName. -/
def iq7 : InviteQuery :=
  { celebrationId := some "no-such-celebration"
    byRosterPersonId := []
    byEmailAddress :=
      [ { emailAddress := some "a@x.com", firstName := none, lastName := none } ] }

/-- Concrete comment query: a private comment. -/
def cq6 : CommentQuery :=
  { celebrationId := some "celebration-1", commentId := none
    comment := some "secret", isPrivate := some true }

/-!  Helper lemmas about the mock generators. -/

/-- One `_mock_celebration` call consumes exactly two uuids. -/
theorem mock_gen_uuid (clk : Nat → Int) (i : Int) (g : Gen) :
    ((mock_celebration clk i g).2).uuid = g.uuid + 2 := by
  simp [mock_celebration, mock_person]

/-- One `_mock_celebration` call consumes exactly one clock reading. -/
theorem mock_gen_tick (clk : Nat → Int) (i : Int) (g : Gen) :
    ((mock_celebration clk i g).2).tick = g.tick + 1 := by
  simp [mock_celebration, mock_person]

/-- The celebration id is the first uuid drawn by `_mock_celebration`. -/
theorem mock_cid (clk : Nat → Int) (i : Int) (g : Gen) :
    ((mock_celebration clk i g).1).celebrationId = g.uuid := rfl

/-- The date is the clock reading plus `i*7` days. -/
theorem mock_date (clk : Nat → Int) (i : Int) (g : Gen) :
    ((mock_celebration clk i g).1).date = clk g.tick + i * 7 * DAY := rfl

/-- The page built by the comprehension has one record per index. -/
theorem genCelebrations_length (clk : Nat → Int) :
    ∀ (is : List Int) (g : Gen),
      ((genCelebrations clk g is).1).length = is.length := by
  intro is
  induction is with
  | nil => intro g; rfl
  | cons i is ih => intro g; simp [genCelebrations, ih]

/-- The index list of `range(n)` has length `n`. -/
theorem idxList_length (cursor : Int) (n : Nat) :
    (idxList cursor n).length = n := by
  unfold idxList
  rw [List.length_map, List.length_range]

/-- Page length of `search` is `max(limit, 0)`. -/
theorem search_page_length (clk : Nat → Int) (q : SearchQuery) (g : Gen) :
    ((search clk q g).1).celebrations.length = (qlimit q).toNat := by
  simp [search, genCelebrations_length, idxList_length]

/-- `search` reports `total = 100` and `nextCursor = cursor + limit`. -/
theorem search_metadata (clk : Nat → Int) (q : SearchQuery) (g : Gen) :
    ((search clk q g).1).metadata
      = { total := 100, nextCursor := qcursor q + qlimit q } := rfl

/-- The uuid counter never decreases across a comprehension. -/
theorem genCel_uuid_mono (clk : Nat → Int) :
    ∀ (is : List Int) (g : Gen),
      g.uuid ≤ ((genCelebrations clk g is).2).uuid := by
  intro is
  induction is with
  | nil => intro g; exact Nat.le_refl _
  | cons i is ih =>
      intro g
      have h1 := ih (mock_celebration clk i g).2
      have h2 := mock_gen_uuid clk i g
      simp only [genCelebrations]
      omega

/-- Every celebration id on a page lies in the uuid interval consumed by
the call. -/
theorem genCel_ids_bound (clk : Nat → Int) :
    ∀ (is : List Int) (g : Gen) (c : Celebration),
      c ∈ (genCelebrations clk g is).1 →
      g.uuid ≤ c.celebrationId ∧ c.celebrationId < ((genCelebrations clk g is).2).uuid := by
  intro is
  induction is with
  | nil => intro g c hc; simp [genCelebrations] at hc
  | cons i is ih =>
      intro g c hc
      simp only [genCelebrations, List.mem_cons] at hc
      rcases hc with hc | hc
      · subst hc
        refine ⟨Nat.le_of_eq (mock_cid clk i g).symm, ?_⟩
        have h1 := genCel_uuid_mono clk is (mock_celebration clk i g).2
        have h2 := mock_gen_uuid clk i g
        have h3 := mock_cid clk i g
        simp only [genCelebrations]
        omega
      · have h1 := ih (mock_celebration clk i g).2 c hc
        have h2 := mock_gen_uuid clk i g
        simp only [genCelebrations]
        omega

/-- Peeling one index off the comprehension index list. -/
theorem idxList_succ (cursor : Int) (n : Nat) :
    idxList cursor (n + 1) = (cursor + 1) :: idxList (cursor + 1) n := by
  unfold idxList
  rw [List.range_succ_eq_map, List.map_cons, List.map_map]
  refine congrArg₂ _ (by norm_num) ?_
  refine List.map_congr_left ?_
  intro j hj
  simp only [Function.comp]
  push_cast
  ring

/-- The dates on a `search` page, in page order: the j-th record carries
`clk (tick + j) + (j + cursor + 1) * 7 * DAY`. -/
theorem genCel_dates (clk : Nat → Int) :
    ∀ (n : Nat) (cursor : Int) (g : Gen),
      ((genCelebrations clk g (idxList cursor n)).1).map Celebration.date
        = (List.range n).map
            (fun (j : Nat) => clk (g.tick + j) + ((j : Int) + cursor + 1) * 7 * DAY) := by
  intro n
  induction n with
  | zero => intro cursor g; simp [idxList, genCelebrations]
  | succ n ih =>
      intro cursor g
      rw [idxList_succ]
      simp only [genCelebrations, List.map_cons]
      rw [List.range_succ_eq_map, List.map_cons, List.map_map]
      refine congrArg₂ _ ?_ ?_
      · rw [mock_date]
        norm_num
      · rw [ih (cursor + 1) (mock_celebration clk (cursor + 1) g).2]
        refine List.map_congr_left ?_
        intro j hj
        simp only [Function.comp]
        rw [mock_gen_tick]
        have harg : g.tick + 1 + j = g.tick + (j + 1) := by omega
        rw [harg]
        push_cast
        ring

/-- C1: for every search request with limit > 0 and cursor >= 0, the page
has length at most `limit`, and `metadata.nextCursor = cursor + limit
= cursor + len(page)` (also on final pages; there is no end-of-results
sentinel), for every combination of identity/team/time filters. -/
theorem C1_search_pagination (clk : Nat → Int) (q : SearchQuery) (g : Gen)
    (hl : 0 < qlimit q) (hc : 0 ≤ qcursor q) :
    ((((search clk q g).1).celebrations.length : Int) ≤ qlimit q) ∧
    ((search clk q g).1).metadata.nextCursor = qcursor q + qlimit q ∧
    ((search clk q g).1).metadata.nextCursor
      = qcursor q + (((search clk q g).1).celebrations.length : Int) := by
  have hcast : ((((search clk q g).1).celebrations.length : Nat) : Int) = qlimit q := by
    rw [search_page_length]
    exact Int.toNat_of_nonneg (le_of_lt hl)
  refine ⟨le_of_eq hcast, rfl, ?_⟩
  rw [hcast]
  rfl

/-- Witness for C1 at limit 2, cursor 0. -/
theorem C1_search_pagination_witness :
    (0 < qlimit cq1 ∧ 0 ≤ qcursor cq1) ∧
    (((((search clk0 cq1 g0).1).celebrations.length : Int) ≤ qlimit cq1) ∧
     ((search clk0 cq1 g0).1).metadata.nextCursor = qcursor cq1 + qlimit cq1 ∧
     ((search clk0 cq1 g0).1).metadata.nextCursor
       = qcursor cq1 + ((((search clk0 cq1 g0).1).celebrations.length : Nat) : Int)) :=
  ⟨⟨by decide, by decide⟩, C1_search_pagination clk0 cq1 g0 (by decide) (by decide)⟩

/-- C10 (implicit): for every search with limit >= 0 and ANY cursor (also
past the reported end of results), the page has exactly `limit` records and
`metadata.total` is always 100. -/
theorem C10_page_always_full (clk : Nat → Int) (q : SearchQuery) (g : Gen)
    (h : 0 ≤ qlimit q) :
    ((((search clk q g).1).celebrations.length : Nat) : Int) = qlimit q ∧
    ((search clk q g).1).metadata.total = 100 := by
  refine ⟨?_, rfl⟩
  rw [search_page_length]
  exact Int.toNat_of_nonneg h

/-- Witness for C10 at limit 3 and cursor 150 (cursor past total = 100). -/
theorem C10_page_always_full_witness :
    (0 ≤ qlimit cq10 ∧ 100 ≤ qcursor cq10) ∧
    (((((search clk0 cq10 g0).1).celebrations.length : Nat) : Int) = qlimit cq10 ∧
     ((search clk0 cq10 g0).1).metadata.total = 100) :=
  ⟨⟨by decide, by decide⟩, C10_page_always_full clk0 cq10 g0 (by decide)⟩

/-- C5 counterexample: a search with limit = 0 does NOT fail with
InvalidArgument — it succeeds and returns an empty page with total 100. -/
theorem C5_counterexample :
    qlimit cq5 = 0 ∧
    search_tool clk0 cq5 g0 = Except.ok (search clk0 cq5 g0) ∧
    toolOk (search_tool clk0 cq5 g0) = true ∧
    ((search clk0 cq5 g0).1).celebrations = [] ∧
    ((search clk0 cq5 g0).1).metadata.total = 100 :=
  ⟨by decide, rfl, rfl, rfl, rfl⟩

/-- C5 amended: search never fails (there is no InvalidArgument path at
all); every call — any limit, any filter values — returns ok, with page
length `max(limit, 0)` (empty when limit <= 0) and total always 100. -/
theorem C5_search_never_fails (clk : Nat → Int) (q : SearchQuery) (g : Gen) :
    toolOk (search_tool clk q g) = true ∧
    ((search clk q g).1).celebrations.length = (qlimit q).toNat ∧
    ((search clk q g).1).metadata.total = 100 :=
  ⟨rfl, search_page_length clk q g, rfl⟩

/-- C3 counterexample: two identical search calls (limit 1, cursor 0)
against the untouched server return different celebration-id sets — the
first page carries id 0, the second id 2. -/
theorem C3_counterexample :
    pageIds ((search clk0 cq3 g0).1) = [0] ∧
    pageIds ((search clk0 cq3 (search clk0 cq3 g0).2).1) = [2] ∧
    pageIds ((search clk0 cq3 g0).1)
      ≠ pageIds ((search clk0 cq3 (search clk0 cq3 g0).2).1) := by
  refine ⟨?_, ?_, ?_⟩ <;> decide

/-- C3 amended: two identical search calls return the same total (always
100), but the records are fabricated afresh with fresh uuids on each call,
so no celebration id of the first page reappears on the second page. -/
theorem C3_fresh_ids (clk : Nat → Int) (q : SearchQuery) (g : Gen) (x : Nat)
    (hx : x ∈ pageIds ((search clk q g).1)) :
    ((search clk q g).1).metadata.total
      = ((search clk q (search clk q g).2).1).metadata.total ∧
    x ∉ pageIds ((search clk q (search clk q g).2).1) := by
  refine ⟨rfl, ?_⟩
  intro hx2
  rcases List.mem_map.mp hx with ⟨c1, hc1, he1⟩
  rcases List.mem_map.mp hx2 with ⟨c2, hc2, he2⟩
  have hb1 := genCel_ids_bound clk (idxList (qcursor q) (qlimit q).toNat) g c1 hc1
  have hb2 := genCel_ids_bound clk (idxList (qcursor q) (qlimit q).toNat)
    (search clk q g).2 c2 hc2
  have eg : (search clk q g).2
      = (genCelebrations clk g (idxList (qcursor q) (qlimit q).toNat)).2 := rfl
  rw [← eg] at hb1
  have e1 : c1.celebrationId = x := he1
  have e2 : c2.celebrationId = x := he2
  omega

/-- Witness for C3 amended: id 0 is on the first page and never on the
second. -/
theorem C3_fresh_ids_witness :
    (0 ∈ pageIds ((search clk0 cq3 g0).1)) ∧
    (((search clk0 cq3 g0).1).metadata.total
        = ((search clk0 cq3 (search clk0 cq3 g0).2).1).metadata.total ∧
     0 ∉ pageIds ((search clk0 cq3 (search clk0 cq3 g0).2).1)) :=
  ⟨by decide, C3_fresh_ids clk0 cq3 g0 0 (by decide)⟩

/-- C4 counterexample: with timePeriod = "past" (limit 2, cursor 0, clock
at epoch 0) the page dates are 7 and 14 days AFTER the query-time clock, in
ascending — not descending — order, and total is the constant 100 although
no returned record lies in the past. -/
theorem C4_counterexample :
    (cq4.filters.bind Filters.timePeriod) = some "past" ∧
    pageDates ((search clk0 cq4 g0).1) = [7 * DAY, 14 * DAY] ∧
    ¬ List.Pairwise (fun a b => b ≤ a) (pageDates ((search clk0 cq4 g0).1)) ∧
    List.Pairwise (fun a b => a < b) (pageDates ((search clk0 cq4 g0).1)) ∧
    ((search clk0 cq4 g0).1).metadata.total = 100 := by
  refine ⟨rfl, by decide, by decide, by decide, rfl⟩

/-- C4 amended: the filters are never read — replacing every filter field
of the query leaves the result unchanged bit for bit — the page is always
sorted by date strictly ascending (for a monotone wall clock), also under
timePeriod = "past", and total is the constant 100 rather than a count of
matching records. -/
theorem C4_always_ascending (clk : Nat → Int) (q : SearchQuery) (g : Gen)
    (hm : Monotone clk) :
    List.Pairwise (fun a b => a < b) (pageDates ((search clk q g).1)) ∧
    ((search clk q g).1).metadata.total = 100 ∧
    (∀ q2 : SearchQuery,
      search clk { q2 with pagination := q.pagination } g = search clk q g) := by
  refine ⟨?_, rfl, fun q2 => rfl⟩
  have hd : pageDates ((search clk q g).1)
      = (List.range (qlimit q).toNat).map
          (fun (j : Nat) => clk (g.tick + j) + ((j : Int) + qcursor q + 1) * 7 * DAY) :=
    genCel_dates clk (qlimit q).toNat (qcursor q) g
  rw [hd, List.pairwise_map]
  refine List.Pairwise.imp ?_ (List.pairwise_lt_range _)
  intro a b hab
  have h1 : clk (g.tick + a) ≤ clk (g.tick + b) := hm (by omega)
  have h2 : ((a : Int) + qcursor q + 1) * 7 * DAY
      < ((b : Int) + qcursor q + 1) * 7 * DAY := by
    have hD : (0 : Int) < 7 * DAY := by norm_num [DAY]
    have hlt : (a : Int) + qcursor q + 1 < (b : Int) + qcursor q + 1 := by
      have : (a : Int) < (b : Int) := by exact_mod_cast hab
      omega
    calc ((a : Int) + qcursor q + 1) * 7 * DAY
        = ((a : Int) + qcursor q + 1) * (7 * DAY) := by ring
      _ < ((b : Int) + qcursor q + 1) * (7 * DAY) := mul_lt_mul_of_pos_right hlt hD
      _ = ((b : Int) + qcursor q + 1) * 7 * DAY := by ring
  exact add_lt_add_of_le_of_lt h1 h2

/-- Witness for C4 amended at the constant clock and the "past" query. -/
theorem C4_always_ascending_witness :
    Monotone clk0 ∧
    List.Pairwise (fun a b => a < b) (pageDates ((search clk0 cq4 g0).1)) ∧
    ((search clk0 cq4 g0).1).metadata.total = 100 :=
  ⟨monotone_const, (C4_always_ascending clk0 cq4 g0 monotone_const).1,
   (C4_always_ascending clk0 cq4 g0 monotone_const).2.1⟩

/-- C2 counterexample: inviting the same single email a second time does
NOT yield invitesSent 0 / alreadyInvited 1 — the second call again reports
the constant invitesSent 2, alreadyInvited 1. -/
theorem C2_counterexample :
    ((invite clk0 iq2 (invite clk0 iq2 g0).2).1).invitationSummary.invitesSent = 2 ∧
    ((invite clk0 iq2 (invite clk0 iq2 g0).2).1).invitationSummary.alreadyInvited = 1 ∧
    ¬ (((invite clk0 iq2 (invite clk0 iq2 g0).2).1).invitationSummary.invitesSent = 0 ∧
       ((invite clk0 iq2 (invite clk0 iq2 g0).2).1).invitationSummary.alreadyInvited = 1) := by
  refine ⟨rfl, rfl, by decide⟩

/-- C2 amended: `invite` keeps no invitee state and never reads the
request: every call — first or repeated, duplicates or not — returns the
constant summary invitesSent 2 / alreadyInvited 1, and the celebration in
the response always reports totalInvites 6 (mock record 1), so totalInvites
never tracks the number of genuinely new identities. -/
theorem C2_invite_summary_constant (clk : Nat → Int) (q q2 : InviteQuery) (g : Gen) :
    ((invite clk q g).1).invitationSummary
      = { invitesSent := 2, alreadyInvited := 1 } ∧
    ((invite clk q2 (invite clk q g).2).1).invitationSummary
      = { invitesSent := 2, alreadyInvited := 1 } ∧
    ((invite clk q g).1).celebration.totalInvites = 6 ∧
    ((invite clk q2 (invite clk q g).2).1).celebration.totalInvites = 6 := by
  refine ⟨rfl, rfl, ?_, ?_⟩ <;> norm_num [invite, mock_celebration]

/-- C7 counterexample: an invite whose only email entry has neither
firstName nor lastName, against a nonexistent celebration id, is NOT
rejected — the call succeeds (no InvalidArgument, no NotFound). -/
theorem C7_counterexample :
    (iq7.byEmailAddress.map EmailEntry.firstName) = [none] ∧
    (iq7.byEmailAddress.map EmailEntry.lastName) = [none] ∧
    invite_tool clk0 iq7 g0 ≠ Except.error Err.invalidArgument ∧
    invite_tool clk0 iq7 g0 ≠ Except.error Err.notFound ∧
    toolOk (invite_tool clk0 iq7 g0) = true := by
  refine ⟨rfl, rfl, by simp [invite_tool], by simp [invite_tool], rfl⟩

/-- C7 amended: `invite` never fails — malformed email entries and unknown
celebration ids are accepted; every call returns ok with the fixed
invitedContributors list, and no invitee state exists to be partially
applied. -/
theorem C7_invite_never_fails (clk : Nat → Int) (q : InviteQuery) (g : Gen) :
    toolOk (invite_tool clk q g) = true ∧
    ((invite clk q g).1).invitedContributors
      = [ { emailAddress := "jane.doe@example.com", firstName := "Jane", lastName := "Doe" },
          { emailAddress := "john.smith@example.com", firstName := "John", lastName := "Smith" } ] :=
  ⟨rfl, rfl⟩

/-- C6: the code has no PermissionDenied path at all — every `comment`
call succeeds, every celebration the server fabricates has
allowPrivateComments = true (so the claim's gating condition is never even
realizable), and a private comment request (cq6) is accepted and echoed
with isPrivate = true. -/
theorem C6_no_permission_gate (clk : Nat → Int) (q : CommentQuery) (g : Gen) :
    toolOk (comment_tool clk q g) = true ∧
    ((comment clk q g).1).celebration.allowPrivateComments = true ∧
    ((comment clk cq6 g).1).comment.isPrivate = true :=
  ⟨rfl, rfl, rfl⟩

/-- C8: `totalComments` equals the number of top-level comments only (here
1); the single reply is nested inline under its parent and is not counted
(top-level plus replies would be 2, not 1) and there is no separate reply
pagination object. -/
theorem C8_totalComments_top_level (clk : Nat → Int) (q : ContribQuery) (g : Gen) :
    ((celebration_contributions clk q g).1).metadata.totalComments
      = ((celebration_contributions clk q g).1).comments.length ∧
    ((celebration_contributions clk q g).1).comments.length = 1 ∧
    (((celebration_contributions clk q g).1).comments.map
        (fun c => (ThreadComment.replies c).length)).sum = 1 ∧
    ((celebration_contributions clk q g).1).metadata.totalComments
      ≠ ((celebration_contributions clk q g).1).comments.length
        + (((celebration_contributions clk q g).1).comments.map
            (fun c => (ThreadComment.replies c).length)).sum := by
  refine ⟨rfl, rfl, rfl, ?_⟩
  show (1 : Nat) ≠ 1 + 1
  decide

/-- C9 (implicit): the returned comment echoes the request exactly — text
is query comment (empty string when absent), isPrivate is query isPrivate
(false when absent), totalLikes is 0 — independent of celebrationId and
commentId. -/
theorem C9_comment_echo (clk : Nat → Int) (q : CommentQuery) (g : Gen) :
    ((comment clk q g).1).comment.comment = q.comment.getD "" ∧
    ((comment clk q g).1).comment.isPrivate = q.isPrivate.getD false ∧
    ((comment clk q g).1).comment.totalLikes = 0 ∧
    (∀ cid cmid : Option String,
      ((comment clk { q with celebrationId := cid, commentId := cmid } g).1).comment
        = ((comment clk q g).1).comment) :=
  ⟨rfl, rfl, rfl, fun _ _ => rfl⟩
